import Mathlib

/-!
Verification of the DNNDON notifications dashboard.

This file gives a shallow embedding of the core of the repository —
the mock notifications API route (`src/app/api/notifications/route.ts`
and its variants), the record store, and the client list-state plumbing
(`services/notifications.ts`, `components/notification-table.tsx`,
`components/ui/data-table/*`) — and proves or refutes the behavioural
properties stated in the specification.

Modelling conventions:
- JavaScript strings are Lean `String`s; `toLowerCase` is modelled on
  `List Char` restricted to ASCII (all repository data is ASCII).
- JavaScript machine numbers are `Int`/`Nat`; `Math.ceil(a / b)` with its
  `Infinity`/`NaN` outcomes for `b = 0` is modelled by the `JsCeil` type.
- Absent object fields / query parameters are `Option` values; JavaScript
  truthiness on an optional string is `jsTruthy`.
- `Array.prototype.sort` (required to be stable by ES2019) is modelled by
  the stable `List.mergeSort`, taking an element of the left run while the
  comparator is ≤ 0.
- Handlers that mutate the module-level `notifications` array are modelled
  as functions from the store to a response paired with the new store.
-/

/-- One notification record, after `Notification` in
`components/notifications/columns.tsx` / `types/notifications.types.ts`.
Field order: `id` (absent in the `route.ts` fixture, present in the
mock-database variant), `type`, `space`, `country`, `city`, `dateTime`,
`status`. -/
structure Notification where
  id : Option String
  type : String
  space : String
  country : String
  city : String
  dateTime : String
  status : String
deriving DecidableEq, Repr

/-- The 15-record mock fixture of `src/app/api/notifications/route.ts`
(field order: id, type, space, country, city, dateTime, status). -/
def notifications : List Notification :=
  [ ⟨none, "Photo", "230 X 500 PX", "Saudi Arabia", "Riyadh", "14, Jan, 2025 - 11:08 PM", "Delivered"⟩
  , ⟨none, "Text", "PX 230 X 500", "United Arab Emirates", "Dubai", "14, Jan, 2025 - 10:30 PM", "In Progress"⟩
  , ⟨none, "Text", "PX 230 X 500", "Kuwait", "Kuwait City", "14, Jan, 2025 - 09:45 PM", "Cancelled"⟩
  , ⟨none, "Photo", "PX 230 X 500", "Qatar", "Doha", "14, Jan, 2025 - 09:15 PM", "Delivered"⟩
  , ⟨none, "Text", "PX 230 X 500", "Bahrain", "Manama", "14, Jan, 2025 - 08:50 PM", "In Progress"⟩
  , ⟨none, "Photo", "230 X 500 PX", "Oman", "Muscat", "14, Jan, 2025 - 08:20 PM", "Delivered"⟩
  , ⟨none, "Text", "PX 230 X 500", "Egypt", "Cairo", "14, Jan, 2025 - 07:45 PM", "In Progress"⟩
  , ⟨none, "Photo", "230 X 500 PX", "Jordan", "Amman", "14, Jan, 2025 - 07:15 PM", "Cancelled"⟩
  , ⟨none, "Text", "PX 230 X 500", "Lebanon", "Beirut", "14, Jan, 2025 - 06:40 PM", "Delivered"⟩
  , ⟨none, "Photo", "230 X 500 PX", "Iraq", "Baghdad", "14, Jan, 2025 - 06:10 PM", "In Progress"⟩
  , ⟨none, "Text", "PX 230 X 500", "Yemen", "Sanaa", "14, Jan, 2025 - 05:35 PM", "Cancelled"⟩
  , ⟨none, "Photo", "230 X 500 PX", "Syria", "Damascus", "14, Jan, 2025 - 05:00 PM", "Delivered"⟩
  , ⟨none, "Text", "PX 230 X 500", "Palestine", "Gaza", "14, Jan, 2025 - 04:25 PM", "In Progress"⟩
  , ⟨none, "Photo", "230 X 500 PX", "Libya", "Tripoli", "14, Jan, 2025 - 03:50 PM", "Cancelled"⟩
  , ⟨none, "Text", "PX 230 X 500", "Tunisia", "Tunis", "14, Jan, 2025 - 03:15 PM", "Delivered"⟩
  ]

/-- The 15-record mock database of the `route.ts` variant that carries
string ids "1".."15" (same values as `notifications`, plus ids). -/
def notificationsDb : List Notification :=
  [ ⟨some "1", "Photo", "230 X 500 PX", "Saudi Arabia", "Riyadh", "14, Jan, 2025 - 11:08 PM", "Delivered"⟩
  , ⟨some "2", "Text", "PX 230 X 500", "United Arab Emirates", "Dubai", "14, Jan, 2025 - 10:30 PM", "In Progress"⟩
  , ⟨some "3", "Text", "PX 230 X 500", "Kuwait", "Kuwait City", "14, Jan, 2025 - 09:45 PM", "Cancelled"⟩
  , ⟨some "4", "Photo", "PX 230 X 500", "Qatar", "Doha", "14, Jan, 2025 - 09:15 PM", "Delivered"⟩
  , ⟨some "5", "Text", "PX 230 X 500", "Bahrain", "Manama", "14, Jan, 2025 - 08:50 PM", "In Progress"⟩
  , ⟨some "6", "Photo", "230 X 500 PX", "Oman", "Muscat", "14, Jan, 2025 - 08:20 PM", "Delivered"⟩
  , ⟨some "7", "Text", "PX 230 X 500", "Egypt", "Cairo", "14, Jan, 2025 - 07:45 PM", "In Progress"⟩
  , ⟨some "8", "Photo", "230 X 500 PX", "Jordan", "Amman", "14, Jan, 2025 - 07:15 PM", "Cancelled"⟩
  , ⟨some "9", "Text", "PX 230 X 500", "Lebanon", "Beirut", "14, Jan, 2025 - 06:40 PM", "Delivered"⟩
  , ⟨some "10", "Photo", "230 X 500 PX", "Iraq", "Baghdad", "14, Jan, 2025 - 06:10 PM", "In Progress"⟩
  , ⟨some "11", "Text", "PX 230 X 500", "Yemen", "Sanaa", "14, Jan, 2025 - 05:35 PM", "Cancelled"⟩
  , ⟨some "12", "Photo", "230 X 500 PX", "Syria", "Damascus", "14, Jan, 2025 - 05:00 PM", "Delivered"⟩
  , ⟨some "13", "Text", "PX 230 X 500", "Palestine", "Gaza", "14, Jan, 2025 - 04:25 PM", "In Progress"⟩
  , ⟨some "14", "Photo", "230 X 500 PX", "Libya", "Tripoli", "14, Jan, 2025 - 03:50 PM", "Cancelled"⟩
  , ⟨some "15", "Text", "PX 230 X 500", "Tunisia", "Tunis", "14, Jan, 2025 - 03:15 PM", "Delivered"⟩
  ]

/-- JavaScript truthiness of an optional string: `undefined`/`null` and
the empty string are falsy. -/
def jsTruthy : Option String → Bool
  | none => false
  | some s => decide (s ≠ "")

/-- ASCII lower-casing of one character (`String.prototype.toLowerCase`
restricted to ASCII, which covers all repository data). -/
def jsLowerChar (c : Char) : Char :=
  if 'A' ≤ c ∧ c ≤ 'Z' then Char.ofNat (c.toNat + 32) else c

/-- `s.toLowerCase()`, as a character list. -/
def jsLower (s : String) : List Char :=
  s.data.map jsLowerChar

/-- `hay.includes(needle)`: contiguous-substring test on character lists. -/
def jsIncludes (hay needle : List Char) : Bool :=
  decide (needle <:+: hay)

/-- The query parameters read by the `route.ts` GET handler:
`query`, `status`, `type`, `page`, `limit`, `sort`, `order`.
`none` models an absent (or, for the numeric ones, empty) parameter;
numeric parameters are modelled post-`parseInt`. -/
structure GetParams where
  query : Option String
  status : Option String
  type : Option String
  page : Option Int
  limit : Option Int
  sort : Option String
  order : Option String
deriving DecidableEq, Repr

/-- An empty query string: every parameter absent. -/
def noParams : GetParams :=
  ⟨none, none, none, none, none, none, none⟩

/-- `parseInt(searchParams.get("page") || "1")`: absent page defaults to 1. -/
def getPage (p : GetParams) : Int := p.page.getD 1

/-- `parseInt(searchParams.get("limit") || "10")`: absent limit defaults to 10. -/
def getLimit (p : GetParams) : Int := p.limit.getD 10

/-- `searchParams.get("order") || "asc"`. -/
def getOrder (p : GetParams) : String :=
  match p.order with
  | none => "asc"
  | some s => if s = "" then "asc" else s

/-- The free-text filter stage of the GET handler: when `query` is truthy
(after lower-casing), keep records whose lower-cased `country` or `city`
contains it. -/
def applyQueryFilter (p : GetParams) (l : List Notification) : List Notification :=
  match p.query with
  | none => l
  | some q =>
    let ql := jsLower q
    if ql = [] then l
    else l.filter (fun n => jsIncludes (jsLower n.country) ql || jsIncludes (jsLower n.city) ql)

/-- The status filter stage: when `status` is truthy, keep records with
`notification.status === status`. -/
def applyStatusFilter (p : GetParams) (l : List Notification) : List Notification :=
  match p.status with
  | none => l
  | some s => if s = "" then l else l.filter (fun n => n.status == s)

/-- The type filter stage: when `type` is truthy, keep records with
`notification.type === type`. -/
def applyTypeFilter (p : GetParams) (l : List Notification) : List Notification :=
  match p.type with
  | none => l
  | some t => if t = "" then l else l.filter (fun n => n.type == t)

/-- The three filter stages of the GET handler, in source order. -/
def filterNotifications (p : GetParams) (l : List Notification) : List Notification :=
  applyTypeFilter p (applyStatusFilter p (applyQueryFilter p l))

/-- Dynamic field access `a[sort]` on a record; an unknown key is
`undefined` (`none`). -/
def jsField (n : Notification) (k : String) : Option String :=
  match k with
  | "id" => n.id
  | "type" => some n.type
  | "space" => some n.space
  | "country" => some n.country
  | "city" => some n.city
  | "dateTime" => some n.dateTime
  | "status" => some n.status
  | _ => none

/-- JavaScript `aValue > bValue` on two possibly-undefined strings:
code-unit lexicographic comparison; any comparison with `undefined` is
false. -/
def jsValGT (a b : Option String) : Bool :=
  match a, b with
  | some x, some y => decide (y.data < x.data)
  | _, _ => false

/-- JavaScript `aValue < bValue`; any comparison with `undefined` is false. -/
def jsValLT (a b : Option String) : Bool :=
  match a, b with
  | some x, some y => decide (x.data < y.data)
  | _, _ => false

/-- The comparator passed to `filteredNotifications.sort` in the GET
handler: `order === "asc" ? (aValue > bValue ? 1 : -1)
: (aValue < bValue ? 1 : -1)`. It never returns 0. -/
def sortComparator (sortKey order : String) (a b : Notification) : Int :=
  let aValue := jsField a sortKey
  let bValue := jsField b sortKey
  if order = "asc" then (if jsValGT aValue bValue then 1 else -1)
  else (if jsValLT aValue bValue then 1 else -1)

/-- The sort stage: when `sort` is truthy, sort with `sortComparator`.
`Array.prototype.sort` (stable per ES2019) is modelled by the stable
`List.mergeSort`, keeping the left element when the comparator is ≤ 0.
Note the comparator never returns 0, so it is not a consistent comparison
function in the ECMAScript sense. -/
def sortNotifications (p : GetParams) (l : List Notification) : List Notification :=
  match p.sort with
  | none => l
  | some s =>
    if s = "" then l
    else l.mergeSort (fun a b => sortComparator s (getOrder p) a b ≤ 0)

/-- Index normalization of `Array.prototype.slice`: a negative index
counts from the end (clamped at 0), a nonnegative one is clamped at the
length. -/
def jsSliceIndex (len : Nat) (i : Int) : Nat :=
  if i < 0 then ((len : Int) + i).toNat else min i.toNat len

/-- `l.slice(start, stop)` with JavaScript index normalization. -/
def jsSlice {α : Type} (l : List α) (start stop : Int) : List α :=
  let s := jsSliceIndex l.length start
  let e := jsSliceIndex l.length stop
  (l.drop s).take (e - s)

/-- The value of `Math.ceil(total / limit)` on JavaScript numbers:
finite for a nonzero divisor, `Infinity` for `total / 0` with positive
total, `NaN` for `0 / 0`. -/
inductive JsCeil where
  | fin : Int → JsCeil
  | posInf : JsCeil
  | nan : JsCeil
deriving DecidableEq, Repr

/-- `Math.ceil(total / limit)` for a natural total and integer limit. -/
def jsMathCeilDiv (total : Nat) (limit : Int) : JsCeil :=
  if limit = 0 then (if total = 0 then .nan else .posInf)
  else if 0 < limit then .fin ((total + limit.toNat - 1) / limit.toNat : Nat)
  else .fin (-((total / limit.natAbs : Nat) : Int))

/-- The `metadata` object of the `route.ts` GET response:
`{ total, page, limit, totalPages, hasMore }`. -/
structure GetMetadata where
  total : Nat
  page : Int
  limit : Int
  totalPages : JsCeil
  hasMore : Bool
deriving DecidableEq, Repr

/-- The 200 payload of the `route.ts` GET handler: `{ data, metadata }`. -/
structure GetOk where
  data : List Notification
  metadata : GetMetadata
deriving DecidableEq, Repr

/-- An error payload with its HTTP status, `{ error: message }`. -/
structure ApiError where
  status : Nat
  message : String
deriving DecidableEq, Repr

/-- The body of the `route.ts` GET handler: filter, sort, paginate the
(copied) store and assemble the response payload. -/
def routeGetOk (store : List Notification) (p : GetParams) : GetOk :=
  let page := getPage p
  let limit := getLimit p
  let sorted := sortNotifications p (filterNotifications p store)
  let start := (page - 1) * limit
  let stop := start + limit
  { data := jsSlice sorted start stop
  , metadata :=
    { total := sorted.length
    , page := page
    , limit := limit
    , totalPages := jsMathCeilDiv sorted.length limit
    , hasMore := decide (stop < (sorted.length : Int)) } }

/-- The `route.ts` GET handler. The `catch` branch (500) is unreachable:
every operation in the `try` body is total, so the handler always returns
a 200 payload. -/
def routeGET (store : List Notification) (p : GetParams) : Except ApiError GetOk :=
  .ok (routeGetOk store p)

/-- The GET handler as a store transformer. The handler copies the store
(`[...notifications]`) before filtering, and the in-place `sort` runs on
that copy (or on the fresh arrays produced by `filter`), so the stored
array is returned unchanged. -/
def routeGETState (store : List Notification) (p : GetParams) :
    Except ApiError GetOk × List Notification :=
  (routeGET store p, store)

/-- A JSON request body for POST/PUT: each `Notification` field is present
or absent (`Partial<Notification>`). -/
structure RequestBody where
  id : Option String
  type : Option String
  space : Option String
  country : Option String
  city : Option String
  dateTime : Option String
  status : Option String
deriving DecidableEq, Repr

/-- The record built by the `route.ts` POST handler from an accepted body:
the body itself, with `dateTime` defaulted to now and `status` defaulted
to "In Progress" when falsy. An absent optional string field is modelled
as the empty string. -/
def postNotification (b : RequestBody) (now : String) : Notification :=
  { id := b.id
  , type := b.type.getD ""
  , space := b.space.getD ""
  , country := b.country.getD ""
  , city := b.city.getD ""
  , dateTime :=
      match b.dateTime with
      | none => now
      | some d => if d = "" then now else d
  , status :=
      match b.status with
      | none => "In Progress"
      | some s => if s = "" then "In Progress" else s }

/-- The `route.ts` POST handler: reject (400) when `type`, `country` or
`city` is falsy, otherwise prepend (`unshift`) the completed record and
return it with status 201. -/
def routePOST (store : List Notification) (b : RequestBody) (now : String) :
    Except ApiError Notification × List Notification :=
  if jsTruthy b.type && jsTruthy b.country && jsTruthy b.city then
    let n := postNotification b now
    (.ok n, n :: store)
  else
    (.error ⟨400, "Missing required fields"⟩, store)

/-- The DELETE handler of the mock-database route variant: 400 when the
`id` parameter is falsy, 404 when no record has that id, otherwise
`splice` the record out and acknowledge. -/
def deleteHandler (store : List Notification) (idParam : Option String) :
    Except ApiError Unit × List Notification :=
  match idParam with
  | none => (.error ⟨400, "Missing notification ID"⟩, store)
  | some i =>
    if i = "" then (.error ⟨400, "Missing notification ID"⟩, store)
    else
      match store.findIdx? (fun n => n.id == some i) with
      | none => (.error ⟨404, "Notification not found"⟩, store)
      | some idx => (.ok (), store.eraseIdx idx)

/-- The object spread `{...notifications[index], ...updates, dateTime: now}`
of the PUT handler: every field present in the body overwrites the stored
one (including `id`), and `dateTime` is always set to now. -/
def mergeRecord (old : Notification) (u : RequestBody) (now : String) : Notification :=
  { id :=
      match u.id with
      | some v => some v
      | none => old.id
  , type := u.type.getD old.type
  , space := u.space.getD old.space
  , country := u.country.getD old.country
  , city := u.city.getD old.city
  , dateTime := now
  , status := u.status.getD old.status }

/-- The PUT handler of the mock-database route variant: 400 when the `id`
parameter is falsy, 404 when no record has that id, otherwise replace the
found record with the spread-merge and return it. -/
def putHandler (store : List Notification) (idParam : Option String)
    (u : RequestBody) (now : String) :
    Except ApiError Notification × List Notification :=
  match idParam with
  | none => (.error ⟨400, "Missing notification ID"⟩, store)
  | some i =>
    if i = "" then (.error ⟨400, "Missing notification ID"⟩, store)
    else
      match store.findIdx? (fun n => n.id == some i) with
      | none => (.error ⟨404, "Notification not found"⟩, store)
      | some idx =>
        match store[idx]? with
        | none => (.error ⟨404, "Notification not found"⟩, store)
        | some old =>
          let upd := mergeRecord old u now
          (.ok upd, store.set idx upd)

/-- The metadata shape of the mock-database GET variant:
`{ total, page, limit, totalPages }` (no `hasMore`). -/
structure DbGetMetadata where
  total : Nat
  page : Int
  limit : Int
  totalPages : JsCeil
deriving DecidableEq, Repr

/-- The 200 payload of the mock-database GET variant. -/
structure DbGetOk where
  data : List Notification
  metadata : DbGetMetadata
deriving DecidableEq, Repr

/-- The mock-database GET variant as a store transformer: it only calls
`notifications.slice(startIndex, endIndex)`, which does not mutate, so the
store is returned unchanged. `page`/`limit` are the handler's
`Number(param ?? default)` values. -/
def dbGET (store : List Notification) (page limit : Int) :
    DbGetOk × List Notification :=
  let startIndex := (page - 1) * limit
  let endIndex := startIndex + limit
  ( { data := jsSlice store startIndex endIndex
    , metadata :=
      { total := store.length
      , page := page
      , limit := limit
      , totalPages := jsMathCeilDiv store.length limit } }
  , store )

/-- The `status` enumeration of `models/notification.model.ts`. -/
def statusEnum : List String := ["Delivered", "In Progress", "Cancelled"]

/-- The `type` enumeration of `models/notification.model.ts`. -/
def typeEnum : List String := ["Photo", "Text"]

/-- Validation of a record against `notificationSchema` in
`models/notification.model.ts`: `type` required and in its enum, `space`,
`country`, `city` required (a required string path rejects the empty
string), `status` in its enum. -/
def notificationSchemaAccepts (n : Notification) : Bool :=
  decide (n.type ∈ typeEnum) && decide (n.space ≠ "") &&
    decide (n.country ≠ "") && decide (n.city ≠ "") &&
    decide (n.status ∈ statusEnum)

/-- `notificationsQueryKey(params)` from `services/notifications.ts`:
`['notifications', params]`. -/
def notificationsQueryKey (p : GetParams) : String × GetParams :=
  ("notifications", p)

/-- Modelled from the spec: the client list state kept by the third-party
data-fetching library used by `useNotifications` (the library itself is
not part of the repository source). The cache maps a query key — produced
by `notificationsQueryKey`, which embeds the full parameter set — to the
last response stored for that key; `currentParams` is the parameter set
currently requested by the page. -/
structure ClientListState where
  currentParams : GetParams
  cache : String × GetParams → Option GetOk

/-- Modelled from the spec: a parameter change moves `currentParams`;
the cache is untouched. -/
def setParams (st : ClientListState) (p : GetParams) : ClientListState :=
  { st with currentParams := p }

/-- Modelled from the spec: a completed fetch stores its response under
the query key of the request that issued it, and under no other key. -/
def applyFetchResult (st : ClientListState) (k : String × GetParams)
    (r : GetOk) : ClientListState :=
  { st with cache := fun q => if q = k then some r else st.cache q }

/-- Modelled from the spec: the list rendered by the page is the cache
entry of the current parameters' key. -/
def displayedData (st : ClientListState) : Option GetOk :=
  st.cache (notificationsQueryKey st.currentParams)

/-- `URLSearchParams.prototype.set`: replace the first pair with the given
key in place, deleting any later pairs with that key, or append the pair
when the key is absent. -/
def urlParamsSet : List (String × String) → String → String → List (String × String)
  | [], k, v => [(k, v)]
  | (k', v') :: rest, k, v =>
    if k' = k then (k, v) :: rest.filter (fun q => q.1 ≠ k)
    else (k', v') :: urlParamsSet rest k v

/-- `URLSearchParams.prototype.get`: the value of the first pair with the
given key. -/
def urlParamsGet (ps : List (String × String)) (k : String) : Option String :=
  (ps.find? (fun q => q.1 = k)).map (·.2)

/-- `handleLimitChange(newLimit)` in `components/notification-table.tsx`
(and `handlePageSizeChange` in `data-table.tsx`): navigate to
`createQueryString({ page: 1, limit: newLimit })`, i.e. the current search
params with `page` set to "1" and `limit` set to `String(newLimit)`. -/
def handleLimitChange (ps : List (String × String)) (newLimit : Int) :
    List (String × String) :=
  urlParamsSet (urlParamsSet ps "page" (toString (1 : Int))) "limit" (toString newLimit)

/-- The digit value of an ASCII digit character. -/
def digitVal? (c : Char) : Option Nat :=
  if '0' ≤ c ∧ c ≤ '9' then some (c.toNat - '0'.toNat) else none

/-- The value of a nonempty ASCII digit string. -/
def digitsVal? : List Char → Option Nat
  | [] => none
  | cs => cs.foldl (fun acc c => do pure (10 * (← acc) + (← digitVal? c))) (some 0)

/-- `Number(s)` restricted to optionally-signed integer numerals (the only
values the components write into `page`/`limit`); `none` models `NaN`. -/
def jsNumber? (s : String) : Option Int :=
  match s.data with
  | '-' :: cs => (digitsVal? cs).map (fun n => -(n : Int))
  | cs => (digitsVal? cs).map (fun n => (n : Int))

/-- `Number(searchParams.get(k)) || dflt` as used by the table components:
an absent parameter (`Number(null)` is 0, falsy), an unparsable one
(`NaN`, falsy) and an explicit 0 all fall back to the default. -/
def parseIntParam (ps : List (String × String)) (k : String) (dflt : Int) : Int :=
  match urlParamsGet ps k with
  | none => dflt
  | some s =>
    match jsNumber? s with
    | none => dflt
    | some m => if m = 0 then dflt else m

/-- The parameter object the table components pass to `useNotifications`:
`{ page, limit }` parsed from the address bar with the given defaults. -/
def clientFetchParams (ps : List (String × String)) (initialPage initialLimit : Int) :
    GetParams :=
  { noParams with
      page := some (parseIntParam ps "page" initialPage)
    , limit := some (parseIntParam ps "limit" initialLimit) }

/-- The free-text predicate of the filter step, as a pointwise test: a
truthy term must be a case-insensitive substring of `country` or `city`. -/
def matchesTerm (p : GetParams) (n : Notification) : Bool :=
  match p.query with
  | none => true
  | some q =>
    let ql := jsLower q
    if ql = [] then true
    else jsIncludes (jsLower n.country) ql || jsIncludes (jsLower n.city) ql

/-- The status predicate of the filter step: a truthy status filter must
equal the record's status exactly. -/
def matchesStatus (p : GetParams) (n : Notification) : Bool :=
  match p.status with
  | none => true
  | some s => if s = "" then true else n.status == s

/-- The type predicate of the filter step: a truthy type filter must
equal the record's type exactly. -/
def matchesType (p : GetParams) (n : Notification) : Bool :=
  match p.type with
  | none => true
  | some t => if t = "" then true else n.type == t

/-- The conjunction of the three filter predicates. -/
def matchesAll (p : GetParams) (n : Notification) : Bool :=
  matchesTerm p n && matchesStatus p n && matchesType p n

/-- Query parameters `page=1&limit=10`. -/
def page1Params : GetParams := { noParams with page := some 1, limit := some 10 }

/-- Query parameters `page=2&limit=10`. -/
def page2Params : GetParams := { noParams with page := some 2, limit := some 10 }

/-- Query parameters `status=Delivered`. -/
def deliveredParams : GetParams := { noParams with status := some "Delivered" }

/-- Record 1 of the fixture (type "Photo"). -/
def fxSaudi : Notification :=
  ⟨none, "Photo", "230 X 500 PX", "Saudi Arabia", "Riyadh", "14, Jan, 2025 - 11:08 PM", "Delivered"⟩

/-- Record 4 of the fixture (also type "Photo": a sort-key tie with
`fxSaudi` when sorting by `type`). -/
def fxQatar : Notification :=
  ⟨none, "Photo", "PX 230 X 500", "Qatar", "Doha", "14, Jan, 2025 - 09:15 PM", "Delivered"⟩

/-- A PUT body that supplies only an `id` field. -/
def patchId99 : RequestBody := ⟨some "99", none, none, none, none, none, none⟩

/-- A POST body with `city` missing. -/
def cityMissingBody : RequestBody :=
  ⟨none, some "Photo", some "230 X 500 PX", some "Egypt", none, none, none⟩

/-- A POST body whose `status` is outside the schema enumeration. -/
def bogusStatusBody : RequestBody :=
  ⟨none, some "Photo", some "230 X 500 PX", some "Egypt", some "Cairo", none, some "Bogus"⟩

/-- A one-record store for concrete update runs. -/
def oneRecordStore : List Notification :=
  [⟨some "1", "Photo", "230 X 500 PX", "Saudi Arabia", "Riyadh", "14, Jan, 2025 - 11:08 PM", "Delivered"⟩]

/-- A PUT body that updates only `status`. -/
def statusPatch : RequestBody := ⟨none, none, none, none, none, none, some "Cancelled"⟩

/-- A client list state with an empty cache, current parameters empty. -/
def emptyClientState : ClientListState := ⟨noParams, fun _ => none⟩

/-- Ceiling division on naturals agrees with the rational ceiling. -/
theorem ceilDiv_eq_rat_ceil (t b : Nat) (hb : 0 < b) :
    (((t + b - 1) / b : Nat) : Int) = ⌈(t : ℚ) / (b : ℚ)⌉ := by
  have hbq : (0:ℚ) < (b : ℚ) := by exact_mod_cast hb
  set m := (t + b - 1) / b with hm
  have h1 : b * m + (t + b - 1) % b = t + b - 1 := Nat.div_add_mod _ _
  have h2 : (t + b - 1) % b < b := Nat.mod_lt _ hb
  have hle : t ≤ b * m := by omega
  have hlt : b * m < t + b := by omega
  have hle' : (t : ℚ) ≤ (b : ℚ) * (m : ℚ) := by exact_mod_cast hle
  have hlt' : (b : ℚ) * (m : ℚ) < (t : ℚ) + (b : ℚ) := by exact_mod_cast hlt
  symm
  rw [Int.ceil_eq_iff]
  constructor
  · rw [lt_div_iff₀ hbq]
    push_cast
    nlinarith
  · rw [div_le_iff₀ hbq]
    push_cast
    nlinarith

/-- `Math.ceil(total / limit)` for a positive limit is the rational
ceiling. -/
theorem jsMathCeilDiv_pos (t : Nat) (p : Int) (hp : 0 < p) :
    jsMathCeilDiv t p = .fin ⌈(t : ℚ) / (p : ℚ)⌉ := by
  have hp0 : ¬(p = 0) := by omega
  have hpn : p = ((p.toNat : Nat) : Int) := by omega
  unfold jsMathCeilDiv
  rw [if_neg hp0, if_pos hp]
  have hb : 0 < p.toNat := by omega
  have h3 := ceilDiv_eq_rat_ceil t p.toNat hb
  have hcast : ((p.toNat : Nat) : ℚ) = (p : ℚ) := by exact_mod_cast hpn.symm
  rw [JsCeil.fin.injEq, h3, hcast]

/-- `slice(start, start + p)` with nonnegative indices is drop-then-take. -/
theorem jsSlice_nonneg {α : Type} (l : List α) (start p : Int)
    (hs : 0 ≤ start) (hp : 0 ≤ p) :
    jsSlice l start (start + p) = (l.drop start.toNat).take p.toNat := by
  unfold jsSlice jsSliceIndex
  dsimp only
  rw [if_neg (by omega : ¬ start < 0), if_neg (by omega : ¬ start + p < 0)]
  have htn : (start + p).toNat = start.toNat + p.toNat := by omega
  rw [htn]
  have hlen : (l.drop start.toNat).length = l.length - start.toNat :=
    List.length_drop _ _
  by_cases h : start.toNat ≤ l.length
  · rw [min_eq_left h]
    by_cases h2 : start.toNat + p.toNat ≤ l.length
    · rw [min_eq_left h2]
      have e0 : start.toNat + p.toNat - start.toNat = p.toNat := by omega
      rw [e0]
    · rw [min_eq_right (by omega : l.length ≤ start.toNat + p.toNat)]
      have e1 : (l.drop start.toNat).take (l.length - start.toNat) = l.drop start.toNat :=
        List.take_of_length_le (by omega)
      have e2 : (l.drop start.toNat).take p.toNat = l.drop start.toNat :=
        List.take_of_length_le (by omega)
      rw [e1, e2]
  · rw [min_eq_right (by omega : l.length ≤ start.toNat),
        min_eq_right (by omega : l.length ≤ start.toNat + p.toNat)]
    rw [List.drop_eq_nil_of_le (by omega : l.length ≤ start.toNat)]
    simp

/-- The sort stage preserves the number of records. -/
theorem sortNotifications_length (p : GetParams) (l : List Notification) :
    (sortNotifications p l).length = l.length := by
  unfold sortNotifications
  match hs : p.sort with
  | none => rfl
  | some s =>
    by_cases h : s = "" <;> simp [h, List.length_mergeSort]

/-- The free-text stage filters with `matchesTerm`. -/
theorem applyQueryFilter_eq (p : GetParams) (l : List Notification) :
    applyQueryFilter p l = l.filter (matchesTerm p) := by
  unfold applyQueryFilter matchesTerm
  match hq : p.query with
  | none => simp
  | some q =>
    by_cases h : jsLower q = [] <;> simp [h]

/-- The status stage filters with `matchesStatus`. -/
theorem applyStatusFilter_eq (p : GetParams) (l : List Notification) :
    applyStatusFilter p l = l.filter (matchesStatus p) := by
  unfold applyStatusFilter matchesStatus
  match hq : p.status with
  | none => simp
  | some s =>
    by_cases h : s = "" <;> simp [h]

/-- The type stage filters with `matchesType`. -/
theorem applyTypeFilter_eq (p : GetParams) (l : List Notification) :
    applyTypeFilter p l = l.filter (matchesType p) := by
  unfold applyTypeFilter matchesType
  match hq : p.type with
  | none => simp
  | some t =>
    by_cases h : t = "" <;> simp [h]

/-- The three filter stages together filter with the conjoined predicate. -/
theorem filterNotifications_eq (p : GetParams) (l : List Notification) :
    filterNotifications p l = l.filter (matchesAll p) := by
  unfold filterNotifications
  rw [applyQueryFilter_eq, applyStatusFilter_eq, applyTypeFilter_eq,
    List.filter_filter, List.filter_filter]
  apply List.filter_congr
  intro n _
  unfold matchesAll
  cases matchesTerm p n <;> cases matchesStatus p n <;> cases matchesType p n <;> rfl

/-- `set` followed by `get` of the same key yields the new value. -/
theorem urlParamsGet_set_self (ps : List (String × String)) (k v : String) :
    urlParamsGet (urlParamsSet ps k v) k = some v := by
  induction ps with
  | nil => simp [urlParamsSet, urlParamsGet]
  | cons hd tl ih =>
    obtain ⟨k1, v1⟩ := hd
    by_cases h : k1 = k
    · simp [urlParamsSet, h, urlParamsGet]
    · simp only [urlParamsSet, if_neg h, urlParamsGet, List.find?_cons] at ih ⊢
      simp [h, ih]

/-- `find?` by key ignores a filter that removes a different key. -/
theorem find?_filter_key_ne (l : List (String × String)) (k k' : String)
    (h : k' ≠ k) :
    (l.filter (fun q => q.1 ≠ k)).find? (fun q => q.1 = k')
      = l.find? (fun q => q.1 = k') := by
  induction l with
  | nil => rfl
  | cons hd tl ih =>
    rw [List.filter_cons]
    by_cases hk : hd.1 = k
    · have hne : (decide (hd.1 = k')) = false := by
        have hne0 : ¬ hd.1 = k' := by rw [hk]; exact fun hh => h hh.symm
        simp [hne0]
      rw [if_neg (by simp [hk]), ih, List.find?_cons, hne]
    · rw [if_pos (by simp [hk]), List.find?_cons, List.find?_cons]
      by_cases hm : hd.1 = k'
      · simp [hm]
      · have h1 : (decide (hd.1 = k')) = false := by simp [hm]
        rw [h1]
        exact ih

/-- `set` leaves `get` of any other key unchanged. -/
theorem urlParamsGet_set_ne (ps : List (String × String)) (k v k' : String)
    (h : k' ≠ k) :
    urlParamsGet (urlParamsSet ps k v) k' = urlParamsGet ps k' := by
  have hkk : ¬ k = k' := fun hh => h hh.symm
  induction ps with
  | nil => simp [urlParamsSet, urlParamsGet, hkk]
  | cons hd tl ih =>
    obtain ⟨k1, v1⟩ := hd
    by_cases hk : k1 = k
    · simp only [urlParamsSet, if_pos hk, urlParamsGet, List.find?_cons]
      simp only [hkk, decide_False]
      rw [show ((tl.filter (fun q => q.1 ≠ k)).find? (fun q => q.1 = k'))
            = tl.find? (fun q => q.1 = k') from find?_filter_key_ne tl k k' h]
      have hne : ¬ k1 = k' := by rw [hk]; exact hkk
      simp [urlParamsGet, List.find?_cons, hne]
    · simp only [urlParamsSet, if_neg hk, urlParamsGet, List.find?_cons] at ih ⊢
      by_cases hm : k1 = k' <;> simp [hm, ih]

/-- `set` of a key the predicate rejects leaves the filtered list
unchanged. -/
theorem filter_urlParamsSet (ps : List (String × String)) (k v : String)
    (P : String × String → Bool) (hk : ∀ w, P (k, w) = false) :
    (urlParamsSet ps k v).filter P = ps.filter P := by
  induction ps with
  | nil => simp [urlParamsSet, List.filter_cons, hk]
  | cons hd tl ih =>
    obtain ⟨k1, v1⟩ := hd
    simp only [urlParamsSet]
    by_cases h : k1 = k
    · rw [if_pos h, List.filter_cons, List.filter_cons]
      have h1 : P (k, v) = false := hk v
      have h2 : P (k1, v1) = false := by rw [h]; exact hk v1
      rw [if_neg (by simp [h1]), if_neg (by simp [h2])]
      rw [List.filter_filter]
      apply List.filter_congr
      intro a _
      by_cases hPa : P a = true
      · have ha : ¬ a.1 = k := by
          intro hak
          have hfa : P a = false := by
            have hh := hk a.2
            rw [← hak] at hh
            exact hh
          rw [hfa] at hPa
          exact Bool.false_ne_true hPa
        simp [hPa, ha]
      · have hPf : P a = false := by revert hPa; cases P a <;> simp
        simp [hPf]
    · rw [if_neg h, List.filter_cons, List.filter_cons]
      by_cases hP : P (k1, v1) = true
      · rw [if_pos hP, if_pos hP]
        exact congrArg (List.cons _) ih
      · rw [if_neg hP, if_neg hP]
        exact ih

/-- The query-key factory embeds the whole parameter set, so distinct
parameter sets have distinct keys. -/
theorem notificationsQueryKey_injective (q q' : GetParams) (h : q ≠ q') :
    notificationsQueryKey q ≠ notificationsQueryKey q' := by
  intro hc
  exact h (congrArg Prod.snd hc)

/-- The data slice computed by the GET body, unfolded. -/
theorem routeGetOk_data (s : List Notification) (q : GetParams) :
    (routeGetOk s q).data
      = jsSlice (sortNotifications q (filterNotifications q s))
          ((getPage q - 1) * getLimit q)
          ((getPage q - 1) * getLimit q + getLimit q) := rfl

/-- The `total` metadata field, unfolded. -/
theorem routeGetOk_total (s : List Notification) (q : GetParams) :
    (routeGetOk s q).metadata.total
      = (sortNotifications q (filterNotifications q s)).length := rfl

/-- The `totalPages` metadata field, unfolded. -/
theorem routeGetOk_totalPages (s : List Notification) (q : GetParams) :
    (routeGetOk s q).metadata.totalPages
      = jsMathCeilDiv (sortNotifications q (filterNotifications q s)).length
          (getLimit q) := rfl

/-- C1: for every record set and every query with `pageSize p > 0` and
1-based page `n`, the GET body returns the slice of the filtered-and-sorted
sequence from `(n-1)*p` (inclusive) to `(n-1)*p + p` (exclusive), a
pre-pagination `total` count, and `totalPages = ceil(total / p)` (0 when
the total is 0); on the 15-record fixture with page size 10, page 1 has
10 records and `totalPages` 2, and page 2 has 5 records. -/
theorem getPagination_correct :
    (∀ (s : List Notification) (q : GetParams) (n p : Int),
        q.page = some n → q.limit = some p → 1 ≤ n → 0 < p →
        (routeGetOk s q).data
            = ((sortNotifications q (filterNotifications q s)).drop
                ((n - 1) * p).toNat).take p.toNat
          ∧ (routeGetOk s q).metadata.total = (filterNotifications q s).length
          ∧ (routeGetOk s q).metadata.totalPages
              = JsCeil.fin ⌈((filterNotifications q s).length : ℚ) / (p : ℚ)⌉
          ∧ ((filterNotifications q s).length = 0 →
              (routeGetOk s q).metadata.totalPages = JsCeil.fin 0))
    ∧ (routeGetOk notifications page1Params).data.length = 10
    ∧ (routeGetOk notifications page1Params).metadata.totalPages = JsCeil.fin 2
    ∧ (routeGetOk notifications page2Params).data.length = 5 := by
  constructor
  · intro s q n p hpage hlimit hn hp
    have hp1 : getPage q = n := by simp [getPage, hpage]
    have hl1 : getLimit q = p := by simp [getLimit, hlimit]
    have hlen := sortNotifications_length q (filterNotifications q s)
    refine ⟨?_, ?_, ?_, ?_⟩
    · rw [routeGetOk_data, hp1, hl1,
        jsSlice_nonneg _ _ _ (mul_nonneg (by omega) (by omega)) (by omega)]
    · rw [routeGetOk_total, hlen]
    · rw [routeGetOk_totalPages, hlen, hl1, jsMathCeilDiv_pos _ _ hp]
    · intro h0
      rw [routeGetOk_totalPages, hlen, hl1, h0, jsMathCeilDiv_pos _ _ hp]
      simp
  · refine ⟨by decide, by decide, by decide⟩

/-- Witness for C1 at the fixture with `page=1&limit=10`. -/
theorem getPagination_correct_witness :
    (routeGetOk notifications page1Params).metadata.total
      = (filterNotifications page1Params notifications).length :=
  (getPagination_correct.1 notifications page1Params 1 10 rfl rfl
    (by decide) (by decide)).2.1

/-- C2: a record passes the filter step iff the (present) free-text term
is a case-insensitive substring of its country or city, the (present)
status filter equals its status, and the (present) type filter equals its
type, conjoined; filtering preserves relative order (the result is a
sublist); status filter "Delivered" on the fixture yields exactly the
delivered records in original order. -/
theorem filterStep_characterization :
    (∀ (p : GetParams) (l : List Notification),
        filterNotifications p l = l.filter (matchesAll p)
        ∧ (filterNotifications p l).Sublist l
        ∧ ∀ n : Notification,
            n ∈ filterNotifications p l ↔ n ∈ l ∧ matchesAll p n = true)
    ∧ (filterNotifications deliveredParams notifications).map Notification.country
        = ["Saudi Arabia", "Qatar", "Oman", "Lebanon", "Syria", "Tunisia"]
    ∧ (filterNotifications deliveredParams notifications).all
        (fun n => n.status == "Delivered") = true := by
  refine ⟨?_, by decide, by decide⟩
  intro p l
  have he := filterNotifications_eq p l
  refine ⟨he, ?_, ?_⟩
  · rw [he]
    exact List.filter_sublist l
  · intro n
    rw [he, List.mem_filter]

/-- C3 evidence: on two fixture records with equal sort-key values
(`type` is "Photo" for both), the handler's comparator returns -1 for
both argument orders in `asc` and also -1 in `desc`: it never returns 0,
`desc` is not the reversal of `asc` on ties, and the ECMAScript stability
guarantee (which assumes a consistent comparator) does not apply. -/
theorem sortComparator_tie_not_reversed :
    notifications[0]? = some fxSaudi
    ∧ notifications[3]? = some fxQatar
    ∧ jsField fxSaudi "type" = jsField fxQatar "type"
    ∧ sortComparator "type" "asc" fxSaudi fxQatar = -1
    ∧ sortComparator "type" "asc" fxQatar fxSaudi = -1
    ∧ sortComparator "type" "desc" fxSaudi fxQatar = -1
    ∧ sortComparator "type" "desc" fxQatar fxSaudi = -1 := by decide

/-- C4 (amended): a missing page parameter behaves as page 1 and a
missing limit as 10; a page beyond the last yields an empty slice with a
success response; but a nonpositive limit is not rejected — the handler
still answers with a success response. -/
theorem getParam_edge_cases :
    (∀ (s : List Notification) (q : GetParams),
        routeGET s { q with page := none } = routeGET s { q with page := some 1 })
    ∧ (∀ (s : List Notification) (q : GetParams),
        routeGET s { q with limit := none } = routeGET s { q with limit := some 10 })
    ∧ (∀ (s : List Notification) (q : GetParams) (n p : Int),
        q.page = some n → q.limit = some p → 1 ≤ n → 0 < p →
        (filterNotifications q s).length ≤ ((n - 1) * p).toNat →
        (routeGetOk s q).data = [] ∧ (routeGET s q).isOk = true)
    ∧ (∀ (s : List Notification) (q : GetParams) (p : Int),
        q.limit = some p → p ≤ 0 → (routeGET s q).isOk = true) := by
  refine ⟨fun s q => rfl, fun s q => rfl, ?_, fun s q p _ _ => rfl⟩
  intro s q n p hpage hlimit hn hp hbeyond
  have hp1 : getPage q = n := by simp [getPage, hpage]
  have hl1 : getLimit q = p := by simp [getLimit, hlimit]
  refine ⟨?_, rfl⟩
  rw [routeGetOk_data, hp1, hl1,
    jsSlice_nonneg _ _ _ (mul_nonneg (by omega) (by omega)) (by omega)]
  rw [List.drop_eq_nil_of_le (by rw [sortNotifications_length]; exact hbeyond)]
  simp

/-- C4 counterexample: `limit=0` is answered with a success response (an
empty page, not a ValidationError), and `page=0` is not treated as
page 1 — its data differs from page 1's. -/
theorem getParam_edge_cases_cex :
    (routeGET notifications { noParams with limit := some 0 }).isOk = true
    ∧ (routeGetOk notifications { noParams with limit := some 0 }).data = []
    ∧ (routeGetOk notifications { noParams with page := some 0 }).data
        ≠ (routeGetOk notifications { noParams with page := some 1 }).data := by
  decide

/-- Witness for C4 (amended) on the fixture at `page=5&limit=10`. -/
theorem getParam_edge_cases_witness :
    (routeGetOk notifications { noParams with page := some 5, limit := some 10 }).data
      = [] :=
  (getParam_edge_cases.2.2.1 notifications
    { noParams with page := some 5, limit := some 10 } 5 10 rfl rfl
    (by decide) (by decide) (by decide)).1

/-- C5: a fetch completion is applied to the cache entry of its own
query key; when the current parameters have moved on, the displayed list
(the entry of the current key) is unchanged, because the key embeds the
full parameter set. -/
theorem staleResponse_never_displayed (st : ClientListState) (p : GetParams)
    (r : GetOk) (h : p ≠ st.currentParams) :
    displayedData (applyFetchResult st (notificationsQueryKey p) r)
      = displayedData st := by
  unfold displayedData applyFetchResult
  dsimp only
  rw [if_neg]
  intro hc
  exact h (congrArg Prod.snd hc).symm

/-- Witness for C5: a page-2 response arriving while the current
parameters are empty does not change the displayed data. -/
theorem staleResponse_never_displayed_witness :
    displayedData (applyFetchResult emptyClientState
        (notificationsQueryKey { noParams with page := some 2 })
        (routeGetOk [] noParams))
      = displayedData emptyClientState :=
  staleResponse_never_displayed emptyClientState { noParams with page := some 2 }
    (routeGetOk [] noParams) (by decide)

/-- C6 counterexample: a PUT body that carries an `id` field overwrites
the stored record's id — record "1" becomes record "99". -/
theorem putId_overwritten_cex :
    ((putHandler notificationsDb (some "1") patchId99 "now").2[0]?).map Notification.id
        = some (some "99")
    ∧ notificationsDb[0]?.map Notification.id = some (some "1") := by decide

/-- C6 (amended): a PUT whose id is found merges exactly the provided
fields, always overwrites `dateTime` with the current time, and leaves
every other record unchanged; the record's id is unchanged provided the
body does not itself carry an `id` field (the spread would overwrite it). -/
theorem putMerge_frame (store : List Notification) (i : String)
    (u : RequestBody) (now : String) (idx : Nat) (old : Notification)
    (hi : i ≠ "") (hu : u.id = none)
    (hfind : store.findIdx? (fun n => n.id == some i) = some idx)
    (hget : store[idx]? = some old) :
    putHandler store (some i) u now
        = (.ok (mergeRecord old u now), store.set idx (mergeRecord old u now))
    ∧ (mergeRecord old u now).id = old.id
    ∧ (mergeRecord old u now).dateTime = now
    ∧ (mergeRecord old u now).type = u.type.getD old.type
    ∧ (mergeRecord old u now).space = u.space.getD old.space
    ∧ (mergeRecord old u now).country = u.country.getD old.country
    ∧ (mergeRecord old u now).city = u.city.getD old.city
    ∧ (mergeRecord old u now).status = u.status.getD old.status
    ∧ ∀ j, j ≠ idx → (store.set idx (mergeRecord old u now))[j]? = store[j]? := by
  refine ⟨?_, ?_, rfl, rfl, rfl, rfl, rfl, rfl, ?_⟩
  · simp [putHandler, hi, hfind, hget]
  · simp [mergeRecord, hu]
  · intro j hj
    exact List.getElem?_set_ne (Ne.symm hj)

/-- Witness for C6 (amended) on a one-record store. -/
theorem putMerge_frame_witness :
    putHandler oneRecordStore (some "1") statusPatch "T"
      = (.ok (mergeRecord ⟨some "1", "Photo", "230 X 500 PX", "Saudi Arabia",
            "Riyadh", "14, Jan, 2025 - 11:08 PM", "Delivered"⟩ statusPatch "T"),
         oneRecordStore.set 0 (mergeRecord ⟨some "1", "Photo", "230 X 500 PX",
            "Saudi Arabia", "Riyadh", "14, Jan, 2025 - 11:08 PM", "Delivered"⟩
            statusPatch "T")) :=
  (putMerge_frame oneRecordStore "1" statusPatch "T" 0
    ⟨some "1", "Photo", "230 X 500 PX", "Saudi Arabia", "Riyadh",
      "14, Jan, 2025 - 11:08 PM", "Delivered"⟩
    (by decide) rfl (by decide) (by decide)).1

/-- C7: a POST with a falsy required field answers 400 and leaves the
store exactly as it was; a DELETE whose id matches no record answers 404
and leaves the store exactly as it was. -/
theorem failedMutation_preserves_store :
    (∀ (store : List Notification) (b : RequestBody) (now : String),
        jsTruthy b.type = false ∨ jsTruthy b.country = false ∨ jsTruthy b.city = false →
        routePOST store b now = (.error ⟨400, "Missing required fields"⟩, store))
    ∧ (∀ (store : List Notification) (i : String),
        i ≠ "" → (∀ n ∈ store, n.id ≠ some i) →
        deleteHandler store (some i) = (.error ⟨404, "Notification not found"⟩, store)) := by
  constructor
  · intro store b now h
    unfold routePOST
    rcases h with h | h | h <;> simp [h]
  · intro store i hi hn
    have hfind : store.findIdx? (fun n => n.id == some i) = none := by
      rw [List.findIdx?_eq_none_iff]
      intro n hmem
      show (n.id == some i) = false
      exact beq_eq_false_iff_ne.mpr (hn n hmem)
    simp [deleteHandler, hi, hfind]

/-- Witness for C7: the spec's missing-`city` insert on the fixture. -/
theorem failedMutation_preserves_store_witness :
    routePOST notifications cityMissingBody "T"
      = (.error ⟨400, "Missing required fields"⟩, notifications) :=
  failedMutation_preserves_store.1 notifications cityMissingBody "T"
    (Or.inr (Or.inr (by decide)))

/-- C8 evidence: the mock POST accepts a body whose status "Bogus" is
outside the schema enumeration — it answers 201 and stores the record,
although the document-store schema of `models/notification.model.ts`
rejects that record. -/
theorem postAccepts_outOfEnum_status :
    (routePOST notifications bogusStatusBody "now").1.isOk = true
    ∧ (routePOST notifications bogusStatusBody "now").2[0]?
        = some (postNotification bogusStatusBody "now")
    ∧ (postNotification bogusStatusBody "now").status = "Bogus"
    ∧ ¬ ("Bogus" ∈ statusEnum)
    ∧ notificationSchemaAccepts (postNotification bogusStatusBody "now") = false
    ∧ (routePOST notifications bogusStatusBody "now").2.length
        = notifications.length + 1 := by decide

/-- C9: the page-size change handler rewrites the address to `page=1`
with the new limit, leaves every other query parameter (the filter
dimensions) untouched, and the parameters fed to the data hook — which
key the fetch cache — parse back as page 1; distinct parameter sets give
distinct query keys, so a changed parameter set triggers a fresh fetch. -/
theorem limitChange_resets_page :
    (∀ (ps : List (String × String)) (n d : Int),
        urlParamsGet (handleLimitChange ps n) "page" = some "1"
        ∧ urlParamsGet (handleLimitChange ps n) "limit" = some (toString n)
        ∧ parseIntParam (handleLimitChange ps n) "page" d = 1
        ∧ (handleLimitChange ps n).filter
              (fun q => decide (q.1 ≠ "page") && decide (q.1 ≠ "limit"))
            = ps.filter (fun q => decide (q.1 ≠ "page") && decide (q.1 ≠ "limit")))
    ∧ (∀ q q' : GetParams, q ≠ q' →
        notificationsQueryKey q ≠ notificationsQueryKey q') := by
  constructor
  · intro ps n d
    have hpage : urlParamsGet (handleLimitChange ps n) "page" = some "1" := by
      unfold handleLimitChange
      rw [urlParamsGet_set_ne _ _ _ _ (by decide), urlParamsGet_set_self]
      decide
    refine ⟨hpage, ?_, ?_, ?_⟩
    · unfold handleLimitChange
      rw [urlParamsGet_set_self]
    · unfold parseIntParam
      rw [hpage]
      show (if (1 : Int) = 0 then d else 1) = 1
      norm_num
    · unfold handleLimitChange
      rw [filter_urlParamsSet _ _ _ _ (fun w => by simp),
          filter_urlParamsSet _ _ _ _ (fun w => by simp)]
  · exact notificationsQueryKey_injective

/-- Witness for C9: distinct parameter sets give distinct query keys. -/
theorem limitChange_resets_page_witness :
    notificationsQueryKey noParams
      ≠ notificationsQueryKey { noParams with limit := some 20 } :=
  limitChange_resets_page.2 noParams { noParams with limit := some 20 } (by decide)

/-- C10: both GET handlers are pure reads — the store after a GET is the
store before it, and a repeated GET with the same parameters returns the
same response. -/
theorem getRequests_pure :
    (∀ (s : List Notification) (p : GetParams), (routeGETState s p).2 = s)
    ∧ (∀ (s : List Notification) (page limit : Int), (dbGET s page limit).2 = s)
    ∧ (∀ (s : List Notification) (p : GetParams),
        (routeGETState ((routeGETState s p).2) p).1 = (routeGETState s p).1) :=
  ⟨fun _ _ => rfl, fun _ _ _ => rfl, fun _ _ => rfl⟩
